import Mathlib

/-!
Verification development for the resilient paginated fetch engine in
`src/lib/twitter-client-timelines.ts` (repository `titouv/bird`).

The engine is shallowly embedded: network transports, random jitter and
query-id candidate lists are parameters; machine behaviour (JS truthiness,
`parseInt`, `.includes`, `Array.join`) is modelled explicitly.  The while
loops of `getBookmarksPaged` (lines 320-349) and
`getBookmarkFolderTimelinePaged` (lines 496-523) are textually identical in
the source and are embedded once as `pagedLoop`, driven by fuel (the source
loop can diverge on an adversarial provider, so every theorem about it is
stated for an arbitrary fuel bound).
-/

set_option maxRecDepth 8192

namespace Bird

/-- An item of a timeline-shaped collection.  The source's `TweetData` has
more payload fields; only `id` is ever consulted by the engine (dedup), the
rest is carried opaquely and is represented here by `text`. -/
structure TweetData where
  id : String
  text : String
deriving DecidableEq, Repr

/-- Outcome of one page fetch over the candidate set
(`fetchPage` / `fetchWithRefresh` result shape): `success` carries the
extracted tweets, the continuation cursor and the `had404` flag (the source
object keeps `had404` on success too); `failure` carries the error string and
the `had404` flag (absent field = `false`). -/
inductive PageAttempt where
  | success (tweets : List TweetData) (cursor : Option String) (had404 : Bool)
  | failure (error : String) (had404 : Bool)
deriving DecidableEq, Repr

/-- Outcome of one likes fetch over the candidate set (`tryOnce` in
`getLikes`, lines 98-162): no cursor is produced. -/
inductive LikesAttempt where
  | success (tweets : List TweetData) (had404 : Bool)
  | failure (error : String) (had404 : Bool)
deriving DecidableEq, Repr

/-- The engine's exposed result shape (`SearchResult` in
`twitter-client-types.ts`): `success` flag plus optional tweets and optional
error string (absent TS fields are `none`). -/
structure SearchResult where
  success : Bool
  tweets : Option (List TweetData)
  error : Option String
deriving DecidableEq, Repr

/-- Body of a 2xx GraphQL response, as seen by the engine.
`instructions` records whether the nested instruction tree
(`data.bookmark_timeline_v2.timeline.instructions` etc.) is present;
`errors` is the provider error-message list (`data.errors`, `[]` when absent
or empty); `items` / `nextCursor` are the outputs of the external Response
Extractor (`parseTweetsFromInstructions` / `extractCursorFromInstructions`,
which live in `twitter-client-utils.ts`, outside `src/`).
Modelled from the spec: the extractor "must tolerate a missing/partial
instruction tree by returning an empty item list rather than failing", so
when `instructions = false` the engine sees `[]` and no cursor. -/
structure PageBody where
  instructions : Bool
  errors : List String
  items : List TweetData
  nextCursor : Option String
  text : String
deriving DecidableEq, Repr

/-- An HTTP response: status, optional `retry-after` header, body. -/
structure HttpResponse where
  status : Nat
  retryAfter : Option String
  body : PageBody
deriving DecidableEq, Repr

/-- Result of one transport call: a response, or a thrown error
(the `catch` branch of the candidate loops). -/
inductive SendResult where
  | ok (r : HttpResponse)
  | err (msg : String)
deriving DecidableEq, Repr

/-- JS `Response.ok`: status in 200..299. -/
def responseOk (status : Nat) : Bool :=
  decide (200 ≤ status) && decide (status < 300)

/-- The fixed recoverable status set of `fetchWithRetry` (line 531). -/
def retryableStatuses : List Nat := [429, 500, 502, 503, 504]

/-- Digit run to a number, base 10. -/
def digitsToNat (cs : List Char) : Nat :=
  cs.foldl (fun a c => a * 10 + (c.toNat - 48)) 0

/-- JS `Number.parseInt(s, 10)`: skip leading whitespace (common ASCII
whitespace modelled), optional sign, then a leading digit run; `none` models
`NaN` (no digit found).  A calendar-date string starts with a letter and
yields `none`. -/
def jsParseInt (s : String) : Option Int :=
  let cs := s.data.dropWhile (fun c => c = ' ' ∨ c = '\t' ∨ c = '\n' ∨ c = '\r')
  match cs with
  | '-' :: rest =>
    let ds := rest.takeWhile Char.isDigit
    if ds = [] then none else some (-(digitsToNat ds : Int))
  | '+' :: rest =>
    let ds := rest.takeWhile Char.isDigit
    if ds = [] then none else some (digitsToNat ds : Int)
  | rest =>
    let ds := rest.takeWhile Char.isDigit
    if ds = [] then none else some (digitsToNat ds : Int)

/-- Delay hint of a response in milliseconds:
`retryAfter ? Number.parseInt(retryAfter, 10) * 1000 : NaN` (line 545), with
`none` for `NaN` (absent header, empty header string — JS falsy — or a
non-numeric header such as an HTTP-date). -/
def headerDelayMs (r : HttpResponse) : Option Int :=
  match r.retryAfter with
  | none => none
  | some h => if h = "" then none else (jsParseInt h).map (fun v => v * 1000)

/-- Backoff delay before the retry that follows `attempt` (lines 544-548):
the header hint when finite, else `baseDelayMs * 2 ** attempt` plus jitter
`Math.floor(Math.random() * baseDelayMs)` (the jitter draw is a parameter). -/
def retryDelay (r : HttpResponse) (attempt : Nat) (jit : Nat) : Int :=
  match headerDelayMs r with
  | some v => v
  | none => (500 : Int) * 2 ^ attempt + (jit : Int)

/-- Core loop of `fetchWithRetry` (lines 533-550): `send n` is the n-th
transport call for this logical request, `jitter n` the jitter drawn before
the retry following attempt `n`; `rem` is `maxRetries - attempt`.  Returns
the final outcome and the list of delays slept.  A thrown transport error
propagates immediately (no retry on exceptions in the source either). -/
def retryAux (send : Nat → SendResult) (jitter : Nat → Nat) :
    Nat → Nat → SendResult × List Int
  | attempt, 0 => (send attempt, [])
  | attempt, rem + 1 =>
    match send attempt with
    | SendResult.err m => (SendResult.err m, [])
    | SendResult.ok r =>
      if r.status ∈ retryableStatuses then
        let rest := retryAux send jitter (attempt + 1) rem
        (rest.1, retryDelay r attempt (jitter attempt) :: rest.2)
      else
        (SendResult.ok r, [])

/-- `fetchWithRetry` (lines 528-553): `maxRetries = 2`, so at most 3
attempts. -/
def fetchWithRetry (send : Nat → SendResult) (jitter : Nat → Nat) :
    SendResult × List Int :=
  retryAux send jitter 0 2

/-- JS `String.prototype.slice(0, 200)` on the response body text. -/
def slice200 (s : String) : String := String.take s 200

/-- The candidate loop shared by `getBookmarksPaged.fetchPage`
(lines 224-301) and the folder variant's `tryOnce` (lines 383-461):
walk the query-id candidates in order, threading `lastError` and `had404`.
404 records the flag and continues; another non-2xx returns a failure
immediately (carrying the accumulated `had404`); a 2xx with a non-empty
error list and no instruction tree records the joined messages and
continues; otherwise the extracted page is an immediate success. -/
def candidateLoop (defaultErr : String) (fetchFn : String → SendResult) :
    List String → Option String → Bool → PageAttempt
  | [], lastError, h404 => PageAttempt.failure (lastError.getD defaultErr) h404
  | q :: rest, _lastError, h404 =>
    match fetchFn q with
    | SendResult.err m => candidateLoop defaultErr fetchFn rest (some m) h404
    | SendResult.ok r =>
      if r.status = 404 then
        candidateLoop defaultErr fetchFn rest (some ("HTTP " ++ toString r.status)) true
      else if responseOk r.status = false then
        PageAttempt.failure ("HTTP " ++ toString r.status ++ ": " ++ slice200 r.body.text) h404
      else if r.body.errors ≠ [] ∧ r.body.instructions = false then
        candidateLoop defaultErr fetchFn rest (some (String.intercalate ", " r.body.errors)) h404
      else
        PageAttempt.success (if r.body.instructions then r.body.items else [])
          (if r.body.instructions then r.body.nextCursor else none) h404

/-- The candidate loop of `getLikes.tryOnce` (lines 98-162).  Unlike the
bookmarks loop it checks `data.errors` before looking at the instruction
tree and returns a failure for the whole attempt (it does not continue to
the next candidate), and it produces no cursor. -/
def likesCandidateLoop (fetchFn : String → SendResult) :
    List String → Option String → Bool → LikesAttempt
  | [], lastError, h404 => LikesAttempt.failure (lastError.getD "Unknown error fetching likes") h404
  | q :: rest, _lastError, h404 =>
    match fetchFn q with
    | SendResult.err m => likesCandidateLoop fetchFn rest (some m) h404
    | SendResult.ok r =>
      if r.status = 404 then
        likesCandidateLoop fetchFn rest (some ("HTTP " ++ toString r.status)) true
      else if responseOk r.status = false then
        LikesAttempt.failure ("HTTP " ++ toString r.status ++ ": " ++ slice200 r.body.text) h404
      else if r.body.errors ≠ [] then
        LikesAttempt.failure (String.intercalate ", " r.body.errors) h404
      else
        LikesAttempt.success (if r.body.instructions then r.body.items else []) h404

/-- Bookmarks page fetch over the candidate set, with every candidate's
request routed through `fetchWithRetry` (line 233): `raw q n` is the n-th
transport call for candidate `q`, `jitter q n` its jitter draws. -/
def bookmarksFetchPage (raw : String → Nat → SendResult)
    (jitter : String → Nat → Nat) (qs : List String) : PageAttempt :=
  candidateLoop "Unknown error fetching bookmarks"
    (fun q => (fetchWithRetry (raw q) (jitter q)).1) qs none false

/-- Bookmark-folder single `tryOnce` pass over the candidate set, with every
candidate's request routed through `fetchWithRetry` (line 393). -/
def folderTryOnce (raw : String → Nat → SendResult)
    (jitter : String → Nat → Nat) (qs : List String) : PageAttempt :=
  candidateLoop "Unknown error fetching bookmark folder"
    (fun q => (fetchWithRetry (raw q) (jitter q)).1) qs none false

/-- Likes attempt over the candidate set.  The source calls
`fetchWithTimeout` directly (line 107) — a single transport call per
candidate, with no transient retry — modelled as `raw q 0`. -/
def likesTryOnce (raw : String → Nat → SendResult) (qs : List String) : LikesAttempt :=
  likesCandidateLoop (fun q => raw q 0) qs none false

/-- Does `sub` occur at the head of `s`? -/
def leadMatch : List Char → List Char → Bool
  | [], _ => true
  | _ :: _, [] => false
  | a :: as, b :: bs => a == b && leadMatch as bs

/-- Does `sub` occur anywhere in `s`? -/
def hasSub (sub : List Char) : List Char → Bool
  | [] => leadMatch sub []
  | c :: t => leadMatch sub (c :: t) || hasSub sub t

/-- JS `String.prototype.includes`. -/
def strIncludes (s sub : String) : Bool := hasSub sub.data s.data

/-- The error-message fragment that marks a rejected count parameter
(line 465). -/
def countMarker : String := "Variable \"$count\""

/-- The error-message fragment that marks a rejected cursor parameter
(line 469). -/
def cursorMarker : String := "Variable \"$cursor\""

/-- JS truthiness of the optional `pageCursor` argument (`undefined` and the
empty string are falsy). -/
def cursorTruthy : Option String → Bool
  | none => false
  | some s => decide (s ≠ "")

/-- The cursor-rejection guard of `getBookmarkFolderTimelinePaged.fetchPage`
(lines 469-475): a failure whose message names the cursor parameter, while a
cursor was supplied, becomes the distinct permanent failure (keeping the
attempt's `had404`). -/
def applyCursorGuard (pageCursor : Option String) (a : PageAttempt) : PageAttempt :=
  match a with
  | PageAttempt.failure e h =>
    if strIncludes e cursorMarker && cursorTruthy pageCursor then
      PageAttempt.failure "Bookmark folder pagination rejected the cursor parameter" h
    else PageAttempt.failure e h
  | s => s

/-- `getBookmarkFolderTimelinePaged.fetchPage` (lines 464-477):
`tryOnce true` is the pass whose request variables include the `count`
parameter, `tryOnce false` the pass without it (the source's
`buildVariables` `includeCount` flag; the cursor, when supplied, is attached
in both passes).  A failed first pass whose message names the count
parameter triggers exactly one second pass without it; then the cursor
guard applies. -/
def folderFetchPage (tryOnce : Bool → PageAttempt) (pageCursor : Option String) : PageAttempt :=
  let a1 := tryOnce true
  let a2 := match a1 with
    | PageAttempt.failure e _ => if strIncludes e countMarker then tryOnce false else a1
    | _ => a1
  applyCursorGuard pageCursor a2

/-- `fetchWithRefresh` (lines 304-318, duplicated verbatim at 480-494):
`fp 0` is the page fetch before any `refreshQueryIds` call, `fp 1` the one
after it.  The second component counts the `refreshQueryIds` calls made.
A second-attempt failure is returned without the `had404` field
(an absent TS field, i.e. `false`), as is a non-404 first failure. -/
def fetchWithRefresh (fp : Nat → PageAttempt) : PageAttempt × Nat :=
  match fp 0 with
  | PageAttempt.success ts c h => (PageAttempt.success ts c h, 0)
  | PageAttempt.failure e h404 =>
    if h404 then
      match fp 1 with
      | PageAttempt.success ts c h => (PageAttempt.success ts c h, 1)
      | PageAttempt.failure e2 _ => (PageAttempt.failure e2 false, 1)
    else (PageAttempt.failure e false, 0)

/-- Result of `getCurrentUser` as consumed by `getLikes` (lines 77-80):
`user` is `some id` when a user object is present. -/
structure UserLookup where
  success : Bool
  user : Option String
  error : Option String
deriving DecidableEq, Repr

/-- `getLikes` (lines 75-80 and 164-178): resolve the current user first;
on a failed or empty lookup return a failure built from the lookup's error
(`?? 'Could not determine current user'`) and issue no request.  Otherwise
run `tryOnce` (argument 0 = before `refreshQueryIds`, 1 = after), with one
refresh allowed on a `had404` failure.  Each `tryOnce` reports the number
of likes-timeline requests it issued; the second component of the result
accumulates them. -/
def getLikes (userResult : UserLookup) (tryOnce : Nat → LikesAttempt × Nat) :
    SearchResult × Nat :=
  if userResult.success = false ∨ userResult.user = none then
    (⟨false, none, some (userResult.error.getD "Could not determine current user")⟩, 0)
  else
    match tryOnce 0 with
    | (LikesAttempt.success ts _, n1) => (⟨true, some ts, none⟩, n1)
    | (LikesAttempt.failure e h404, n1) =>
      if h404 then
        match tryOnce 1 with
        | (LikesAttempt.success ts _, n2) => (⟨true, some ts, none⟩, n1 + n2)
        | (LikesAttempt.failure e2 _, n2) => (⟨false, none, some e2⟩, n1 + n2)
      else (⟨false, none, some e⟩, n1)

/-- The `!unlimited && tweets.length >= limit` break guard of the merge loop
(lines 335-337 / 511-513): `none` models an unbounded (`Infinity`) limit. -/
def limitHit : Option Nat → Nat → Bool
  | none, _ => false
  | some l, n => decide (l ≤ n)

/-- The per-page merge loop (lines 329-338 / 505-514): walk the page's
tweets in order, skipping ids already in `seen`, appending the rest, and
stopping as soon as a bounded target is met (remaining items on the page are
discarded).  Returns the updated `seen` set (as a list with the same
membership) and item list. -/
def mergeTweets (limit : Option Nat) :
    List String → List TweetData → List TweetData → List String × List TweetData
  | seen, acc, [] => (seen, acc)
  | seen, acc, t :: rest =>
    if t.id ∈ seen then mergeTweets limit seen acc rest
    else
      if limitHit limit (acc ++ [t]).length then (t.id :: seen, acc ++ [t])
      else mergeTweets limit (t.id :: seen) (acc ++ [t]) rest

/-- The `while (unlimited || tweets.length < limit)` guard (line 321/497). -/
def keepGoing (limit : Option Nat) (n : Nat) : Bool :=
  match limit with
  | none => true
  | some l => decide (n < l)

/-- This page's requested size (line 322/498):
`unlimited ? pageSize : Math.min(pageSize, limit - tweets.length)` with
`pageSize = 20`. -/
def pageCountFor (limit : Option Nat) (n : Nat) : Nat :=
  match limit with
  | none => 20
  | some l => min 20 (l - n)

/-- JS falsiness of `page.cursor` (`!page.cursor`, line 340/516):
`undefined` or the empty string. -/
def cursorFalsy : Option String → Bool
  | none => true
  | some s => decide (s = "")

/-- The page-ceiling check `maxPages && pagesFetched >= maxPages`
(line 343/519): a `maxPages` of 0 is falsy and disables the ceiling. -/
def maxPagesHit (maxPages : Option Nat) (p : Nat) : Bool :=
  match maxPages with
  | none => false
  | some m => decide (m ≠ 0) && decide (m ≤ p)

/-- A logged page request: requested size, the cursor attached, and how many
items had been collected when it was issued. -/
structure PageRequest where
  count : Nat
  cursor : Option String
  collected : Nat
deriving DecidableEq, Repr

/-- State of the pagination driver (lines 199-203 / 359-363) plus a log of
the page requests issued so far. -/
structure DriverState where
  seen : List String
  tweets : List TweetData
  cursor : Option String
  pagesFetched : Nat
  log : List PageRequest
deriving DecidableEq, Repr

/-- The driver loop of `getBookmarksPaged` (lines 320-349), textually
identical in `getBookmarkFolderTimelinePaged` (lines 496-523).  `fetch` is
the page-level `fetchWithRefresh`; the loop is driven by fuel (`none` =
fuel exhausted before the source loop returned).  On failure the
accumulated tweets are dropped (`{success: false, error: page.error}`);
on success the stop conditions are, in order: falsy next cursor, next
cursor equal to the cursor just used, an empty page, and the page
ceiling. -/
def pagedLoop (fetch : Nat → Option String → PageAttempt) (limit maxPages : Option Nat) :
    Nat → DriverState → Option (SearchResult × List PageRequest)
  | 0, _ => none
  | fuel + 1, st =>
    if keepGoing limit st.tweets.length then
      match fetch (pageCountFor limit st.tweets.length) st.cursor with
      | PageAttempt.failure e _ =>
        some (⟨false, none, some e⟩,
          st.log ++ [⟨pageCountFor limit st.tweets.length, st.cursor, st.tweets.length⟩])
      | PageAttempt.success pageTweets nextCursor _ =>
        let log' := st.log ++ [⟨pageCountFor limit st.tweets.length, st.cursor, st.tweets.length⟩]
        let merged := mergeTweets limit st.seen st.tweets pageTweets
        if cursorFalsy nextCursor || decide (nextCursor = st.cursor) || pageTweets.isEmpty then
          some (⟨true, some merged.2, none⟩, log')
        else if maxPagesHit maxPages (st.pagesFetched + 1) then
          some (⟨true, some merged.2, none⟩, log')
        else
          pagedLoop fetch limit maxPages fuel
            ⟨merged.1, merged.2, nextCursor, st.pagesFetched + 1, log'⟩
    else
      some (⟨true, some st.tweets, none⟩, st.log)

/-- The driver's initial state (line 199-202 / 359-362). -/
def initState : DriverState := ⟨[], [], none, 0, []⟩

/-- Cursor token encoding a resume position, for the idealized provider:
position `k` is a string of `k` copies of `x` (never the empty string for
`k > 0`, so never JS-falsy). -/
def posTok (k : Nat) : String := String.mk (List.replicate k 'x')

/-- Resume position encoded by a token. -/
def tokPos (s : String) : Nat := s.data.length

/-- Start index requested by a cursor. -/
def startOf : Option String → Nat
  | none => 0
  | some s => tokPos s

/-- An idealized well-behaved provider over an underlying collection `coll`:
a page request for `pageCount` items at a cursor returns the next
`pageCount` items of the collection and a continuation token exactly when
items remain.  This models the claim's "underlying collection"; it is the
environment the engine runs against, not repository code. -/
def collFetch (coll : List TweetData) (pageCount : Nat) (cursor : Option String) : PageAttempt :=
  PageAttempt.success ((coll.drop (startOf cursor)).take pageCount)
    (if startOf cursor + pageCount < coll.length then some (posTok (startOf cursor + pageCount))
     else none)
    false

/-- A logged request honours the bounded-budget size rule
`min(fixedPageSize = 20, remaining target)`. -/
def reqOK (N : Nat) (e : PageRequest) : Prop := e.count = min 20 (N - e.collected)

/-- C3: the fetch-with-refresh wrapper runs the candidate-set page fetch
once; if and only if that outcome is a not-found failure it refreshes the
identifiers and runs the whole sequence exactly one more time, returning
whichever of the two outcomes is a success and otherwise the second
attempt's failure; at most one forced-refresh cycle occurs per call, even
when both attempts fail with not-found. -/
theorem fetchWithRefresh_spec (fp : Nat → PageAttempt) :
    (fetchWithRefresh fp).2 ≤ 1 ∧
    ((fetchWithRefresh fp).2 = 1 ↔ ∃ e, fp 0 = PageAttempt.failure e true) ∧
    (∀ ts c h, fp 0 = PageAttempt.success ts c h →
      fetchWithRefresh fp = (PageAttempt.success ts c h, 0)) ∧
    (∀ e, fp 0 = PageAttempt.failure e false →
      fetchWithRefresh fp = (PageAttempt.failure e false, 0)) ∧
    (∀ e ts c h, fp 0 = PageAttempt.failure e true → fp 1 = PageAttempt.success ts c h →
      fetchWithRefresh fp = (PageAttempt.success ts c h, 1)) ∧
    (∀ e e2 h2, fp 0 = PageAttempt.failure e true → fp 1 = PageAttempt.failure e2 h2 →
      fetchWithRefresh fp = (PageAttempt.failure e2 false, 1)) := by
  refine ⟨?_, ?_, ?_, ?_, ?_, ?_⟩
  · unfold fetchWithRefresh
    cases h0 : fp 0 with
    | success ts c h => simp
    | failure e b =>
      cases b with
      | false => simp
      | true => cases h1 : fp 1 <;> simp
  · constructor
    · intro hcnt
      unfold fetchWithRefresh at hcnt
      cases h0 : fp 0 with
      | success ts c h => rw [h0] at hcnt; simp at hcnt
      | failure e b =>
        cases b with
        | false => rw [h0] at hcnt; simp at hcnt
        | true => exact ⟨e, rfl⟩
    · rintro ⟨e, he⟩
      unfold fetchWithRefresh
      rw [he]
      cases h1 : fp 1 <;> simp
  · intro ts c h heq; simp [fetchWithRefresh, heq]
  · intro e heq; simp [fetchWithRefresh, heq]
  · intro e ts c h heq heq1; simp [fetchWithRefresh, heq, heq1]
  · intro e e2 h2 heq heq1; simp [fetchWithRefresh, heq, heq1]

/-- Witness for C3: a not-found first failure followed by a successful
refreshed attempt returns the second outcome with exactly one refresh. -/
theorem fetchWithRefresh_spec_witness :
    fetchWithRefresh (fun n => if n = 0 then PageAttempt.failure "HTTP 404" true
      else PageAttempt.success [⟨"t1", "x"⟩] none false) =
      (PageAttempt.success [⟨"t1", "x"⟩] none false, 1) :=
  (fetchWithRefresh_spec (fun n => if n = 0 then PageAttempt.failure "HTTP 404" true
      else PageAttempt.success [⟨"t1", "x"⟩] none false)).2.2.2.2.1
    "HTTP 404" [⟨"t1", "x"⟩] none false rfl rfl

/-- C10: `getLikes` resolves the current user before building any request;
a failed or empty lookup yields a failure carrying the lookup's error
string (or the fixed fallback message) and issues no likes-timeline
request. -/
theorem getLikes_user_guard (userResult : UserLookup)
    (tryOnce : Nat → LikesAttempt × Nat)
    (h : userResult.success = false ∨ userResult.user = none) :
    getLikes userResult tryOnce =
      (⟨false, none, some (userResult.error.getD "Could not determine current user")⟩, 0) := by
  unfold getLikes
  rw [if_pos h]

/-- Witness for C10: a lookup with no user and no error string yields the
fallback message and zero requests. -/
theorem getLikes_user_guard_witness :
    getLikes ⟨true, none, none⟩ (fun _ => (LikesAttempt.success [] false, 1)) =
      (⟨false, none, some "Could not determine current user"⟩, 0) :=
  getLikes_user_guard ⟨true, none, none⟩ (fun _ => (LikesAttempt.success [] false, 1))
    (Or.inr rfl)

/-- C9: in the bookmark-folder page fetch, a failed first pass whose error
names the count parameter triggers exactly one second pass with the count
parameter omitted (whose success is then returned); a failure whose error
names the cursor parameter while a cursor was supplied becomes the distinct
permanent failure message instead of any cursor-dropping retry. -/
theorem folderFetchPage_spec (tryOnce : Bool → PageAttempt) (pageCursor : Option String) :
    (∀ ts c h, tryOnce true = PageAttempt.success ts c h →
      folderFetchPage tryOnce pageCursor = PageAttempt.success ts c h) ∧
    (∀ e h ts c h2, tryOnce true = PageAttempt.failure e h →
      strIncludes e countMarker = true → tryOnce false = PageAttempt.success ts c h2 →
      folderFetchPage tryOnce pageCursor = PageAttempt.success ts c h2) ∧
    (∀ e h e2 h2, tryOnce true = PageAttempt.failure e h →
      strIncludes e countMarker = true → tryOnce false = PageAttempt.failure e2 h2 →
      strIncludes e2 cursorMarker = true → cursorTruthy pageCursor = true →
      folderFetchPage tryOnce pageCursor =
        PageAttempt.failure "Bookmark folder pagination rejected the cursor parameter" h2) ∧
    (∀ e h, tryOnce true = PageAttempt.failure e h →
      strIncludes e countMarker = false → strIncludes e cursorMarker = true →
      cursorTruthy pageCursor = true →
      folderFetchPage tryOnce pageCursor =
        PageAttempt.failure "Bookmark folder pagination rejected the cursor parameter" h) := by
  refine ⟨?_, ?_, ?_, ?_⟩
  · intro ts c h heq
    simp [folderFetchPage, heq, applyCursorGuard]
  · intro e h ts c h2 heq hcount heq2
    simp [folderFetchPage, heq, hcount, heq2, applyCursorGuard]
  · intro e h e2 h2 heq hcount heq2 hcur htr
    simp [folderFetchPage, heq, hcount, heq2, applyCursorGuard, hcur, htr]
  · intro e h heq hcount hcur htr
    simp [folderFetchPage, heq, hcount, applyCursorGuard, hcur, htr]

/-- Witness for C9: a count-parameter rejection followed by a
cursor-parameter rejection, with a cursor supplied, ends in the distinct
permanent failure. -/
theorem folderFetchPage_spec_witness :
    folderFetchPage (fun withCount => if withCount then
        PageAttempt.failure "Variable \"$count\" was rejected" false
      else PageAttempt.failure "Variable \"$cursor\" was rejected" false) (some "cur0") =
      PageAttempt.failure "Bookmark folder pagination rejected the cursor parameter" false :=
  (folderFetchPage_spec (fun withCount => if withCount then
        PageAttempt.failure "Variable \"$count\" was rejected" false
      else PageAttempt.failure "Variable \"$cursor\" was rejected" false)
      (some "cur0")).2.2.1
    "Variable \"$count\" was rejected" false "Variable \"$cursor\" was rejected" false
    rfl (by decide) rfl (by decide) (by decide)

/-- C2: when a fetched page's continuation token equals the token used for
that request, the pagination loop stops within that same iteration with a
successful result and issues no further page request (exactly one request is
added to the log), and the page's items are still merged — deduplicated by
identity — into the result before the stop check fires. -/
theorem paged_stop_on_cursor_echo (fetch : Nat → Option String → PageAttempt)
    (limit maxPages : Option Nat) (fuel : Nat) (st : DriverState)
    (pts : List TweetData) (h404 : Bool)
    (hgo : keepGoing limit st.tweets.length = true)
    (hf : fetch (pageCountFor limit st.tweets.length) st.cursor =
      PageAttempt.success pts st.cursor h404) :
    pagedLoop fetch limit maxPages (fuel + 1) st =
      some (⟨true, some (mergeTweets limit st.seen st.tweets pts).2, none⟩,
        st.log ++ [⟨pageCountFor limit st.tweets.length, st.cursor, st.tweets.length⟩]) := by
  simp only [pagedLoop, hgo, if_true, hf]
  have hd : decide (st.cursor = st.cursor) = true := by simp
  simp [hd]

/-- Page 1 of the C2 scenario: 20 distinct items. -/
def c2page1 : List TweetData := (List.range 20).map (fun i => ⟨toString i, ""⟩)

/-- Page 2 of the C2 scenario: 5 items duplicating page 1's first five. -/
def c2page2 : List TweetData := (List.range 5).map (fun i => ⟨toString i, ""⟩)

/-- The C2 scenario's provider: the first page carries token `c1`, any
further page returns the duplicates behind the unchanged token `c1`. -/
def c2fetch : Nat → Option String → PageAttempt := fun _ c =>
  match c with
  | none => PageAttempt.success c2page1 (some "c1") false
  | some _ => PageAttempt.success c2page2 (some "c1") false

/-- Driver state after the C2 scenario's first page. -/
def c2state1 : DriverState :=
  ⟨((List.range 20).map (fun i => toString i)).reverse, c2page1, some "c1", 1,
    [⟨20, none, 0⟩]⟩

/-- Witness for C2: the unbounded scenario — page 1 returns 20 items with
token `c1`, page 2 returns 5 duplicates with the same token — yields the 20
items of page 1 and halts after exactly two page requests. -/
theorem paged_stop_on_cursor_echo_witness :
    pagedLoop c2fetch none none 3 initState =
      some (⟨true, some c2page1, none⟩, [⟨20, none, 0⟩, ⟨20, some "c1", 20⟩]) ∧
    c2page1.length = 20 := by
  constructor
  · have h := paged_stop_on_cursor_echo c2fetch none none 1 c2state1 c2page2 false rfl rfl
    have h0 : pagedLoop c2fetch none none 3 initState =
        pagedLoop c2fetch none none 2 c2state1 := by rfl
    rw [h0, h]
    rfl
  · rfl

/-- C7: if any page fetch fails, the pagination driver returns a failure
carrying only the error string of the failing fetch and no items — items
accumulated from prior successful pages are discarded, never returned
alongside the failure. -/
theorem paged_failure_discards_items (fetch : Nat → Option String → PageAttempt)
    (limit maxPages : Option Nat) :
    ∀ (fuel : Nat) (st : DriverState) (r : SearchResult) (log : List PageRequest),
      pagedLoop fetch limit maxPages fuel st = some (r, log) → r.success = false →
      r.tweets = none ∧ ∃ pc c e h, fetch pc c = PageAttempt.failure e h ∧ r.error = some e := by
  intro fuel
  induction fuel with
  | zero => intro st r log h; simp [pagedLoop] at h
  | succ fuel ih =>
    intro st r log h hfail
    simp only [pagedLoop] at h
    split at h
    · split at h
      · next e h404 hf =>
        rw [Option.some_inj, Prod.mk.injEq] at h
        obtain ⟨hr, _⟩ := h
        subst hr
        exact ⟨rfl, _, _, e, h404, hf, rfl⟩
      · next pts nc h404 hf =>
        split at h
        · rw [Option.some_inj, Prod.mk.injEq] at h
          obtain ⟨hr, _⟩ := h
          subst hr
          cases hfail
        · split at h
          · rw [Option.some_inj, Prod.mk.injEq] at h
            obtain ⟨hr, _⟩ := h
            subst hr
            cases hfail
          · exact ih _ _ _ h hfail
    · rw [Option.some_inj, Prod.mk.injEq] at h
      obtain ⟨hr, _⟩ := h
      subst hr
      cases hfail

/-- Provider for the C7 witness: every page fetch fails. -/
def c7fetch : Nat → Option String → PageAttempt := fun _ _ =>
  PageAttempt.failure "HTTP 503: busy" false

/-- Witness for C7: a failing page fetch produces a result with no tweets
and the fetch's error string. -/
theorem paged_failure_discards_items_witness :
    (⟨false, none, some "HTTP 503: busy"⟩ : SearchResult).tweets = none ∧
    ∃ pc c e h, c7fetch pc c = PageAttempt.failure e h ∧
      (⟨false, none, some "HTTP 503: busy"⟩ : SearchResult).error = some e :=
  paged_failure_discards_items c7fetch (some 5) none 1 initState
    ⟨false, none, some "HTTP 503: busy"⟩ [⟨5, none, 0⟩] rfl rfl

/-- Unfolding of the retry loop over a non-throwing transport: it performs
`k ≤ rem` retries, sleeping the computed delay before each, retrying only on
recoverable statuses, and stopping early only on a non-recoverable
status. -/
theorem retryAux_spec (send : Nat → HttpResponse) (jitter : Nat → Nat) :
    ∀ (rem attempt : Nat),
      ∃ k, k ≤ rem ∧
        retryAux (fun n => SendResult.ok (send n)) jitter attempt rem =
          (SendResult.ok (send (attempt + k)),
            (List.range k).map
              (fun i => retryDelay (send (attempt + i)) (attempt + i) (jitter (attempt + i)))) ∧
        (∀ i, i < k → (send (attempt + i)).status ∈ retryableStatuses) ∧
        (k < rem → (send (attempt + k)).status ∉ retryableStatuses) := by
  intro rem
  induction rem with
  | zero =>
    intro attempt
    exact ⟨0, Nat.le_refl 0, by simp [retryAux], by omega, by omega⟩
  | succ rem ih =>
    intro attempt
    by_cases hs : (send attempt).status ∈ retryableStatuses
    · obtain ⟨k, hk, heq, hall, hstop⟩ := ih (attempt + 1)
      refine ⟨k + 1, by omega, ?_, ?_, ?_⟩
      · have harith : attempt + (k + 1) = attempt + 1 + k := by omega
        have hmap : (List.range k).map
              (fun i => retryDelay (send (attempt + 1 + i)) (attempt + 1 + i)
                (jitter (attempt + 1 + i))) =
            (List.range k).map
              ((fun i => retryDelay (send (attempt + i)) (attempt + i) (jitter (attempt + i))) ∘
                Nat.succ) := by
          refine List.map_congr_left (fun a _ => ?_)
          simp only [Function.comp_apply]
          rw [show attempt + 1 + a = attempt + (a + 1) by omega]
        simp only [retryAux, hs, if_true, heq, harith, List.range_succ_eq_map, List.map_cons,
          List.map_map, Nat.add_zero, hmap]
      · intro i hi
        cases i with
        | zero => simpa using hs
        | succ j =>
          rw [show attempt + (j + 1) = attempt + 1 + j by omega]
          exact hall j (by omega)
      · intro hlt
        rw [show attempt + (k + 1) = attempt + 1 + k by omega]
        exact hstop (by omega)
    · refine ⟨0, by omega, ?_, by omega, fun _ => by simpa using hs⟩
      simp [retryAux, hs]

/-- C8: the Transient Retry Wrapper retries the identical request only when
the status is recoverable (429, 500, 502, 503, 504), performs at most 2
retries (3 attempts total), returns any non-recoverable response — and the
final attempt's response — immediately; each retry's delay is the
`retry-after` delta-seconds hint converted exactly to milliseconds when
present, and otherwise lies in `[500 * 2 ^ attempt, 500 * 2 ^ attempt + 500)`
milliseconds (calendar-date hints parse to `NaN` and fall back to this
exponential backoff). -/
theorem fetchWithRetry_spec (send : Nat → HttpResponse) (jitter : Nat → Nat)
    (hj : ∀ a, jitter a < 500) :
    ∃ k, k ≤ 2 ∧
      fetchWithRetry (fun n => SendResult.ok (send n)) jitter =
        (SendResult.ok (send k),
          (List.range k).map (fun i => retryDelay (send i) i (jitter i))) ∧
      (∀ i, i < k → (send i).status ∈ retryableStatuses) ∧
      (k < 2 → (send k).status ∉ retryableStatuses) ∧
      (∀ i, i < k →
        (headerDelayMs (send i) = none →
          (500 * 2 ^ i : Int) ≤ retryDelay (send i) i (jitter i) ∧
            retryDelay (send i) i (jitter i) < 500 * 2 ^ i + 500) ∧
        (∀ s v, (send i).retryAfter = some s → jsParseInt s = some v →
          retryDelay (send i) i (jitter i) = v * 1000)) := by
  obtain ⟨k, hk, heq, hall, hstop⟩ := retryAux_spec send jitter 2 0
  simp only [Nat.zero_add] at heq hall hstop
  refine ⟨k, hk, heq, hall, hstop, ?_⟩
  intro i _
  constructor
  · intro hnone
    have h1 : (0 : Int) ≤ (jitter i : Int) := Int.ofNat_nonneg _
    have h2 : (jitter i : Int) < 500 := by exact_mod_cast hj i
    simp only [retryDelay, hnone]
    omega
  · intro s v hs hv
    have hne : s ≠ "" := by
      intro hemp
      rw [hemp] at hv
      simp [jsParseInt] at hv
    unfold retryDelay headerDelayMs
    rw [hs]
    simp [hne, hv]

/-- Transport for the C8 witness: a 500, then a 429 carrying
`retry-after: 7`, then a 200. -/
def c8send : Nat → HttpResponse := fun n =>
  if n = 0 then ⟨500, none, ⟨false, [], [], none, "a"⟩⟩
  else if n = 1 then ⟨429, some "7", ⟨false, [], [], none, "b"⟩⟩
  else ⟨200, none, ⟨true, [], [], none, "c"⟩⟩

/-- Witness for C8, at the concrete transport `c8send` with constant jitter
123. -/
theorem fetchWithRetry_spec_witness :
    ∃ k, k ≤ 2 ∧
      fetchWithRetry (fun n => SendResult.ok (c8send n)) (fun _ => 123) =
        (SendResult.ok (c8send k),
          (List.range k).map (fun i => retryDelay (c8send i) i 123)) ∧
      (∀ i, i < k → (c8send i).status ∈ retryableStatuses) ∧
      (k < 2 → (c8send k).status ∉ retryableStatuses) ∧
      (∀ i, i < k →
        (headerDelayMs (c8send i) = none →
          (500 * 2 ^ i : Int) ≤ retryDelay (c8send i) i 123 ∧
            retryDelay (c8send i) i 123 < 500 * 2 ^ i + 500) ∧
        (∀ s v, (c8send i).retryAfter = some s → jsParseInt s = some v →
          retryDelay (c8send i) i 123 = v * 1000)) :=
  fetchWithRetry_spec c8send (fun _ => 123) (by intro a; show (123 : Nat) < 500; decide)

/-- The `had404` flag carried by a page-fetch outcome (present on both the
success and the failure object in the source). -/
def PageAttempt.flag404 : PageAttempt → Bool
  | PageAttempt.success _ _ h => h
  | PageAttempt.failure _ h => h

/-- Did the candidate scan observe an HTTP 404 before (or at) the attempt
that terminated it?  Mirrors the branch structure of `candidateLoop`. -/
def sawNotFound (fetchFn : String → SendResult) : List String → Bool
  | [] => false
  | q :: rest =>
    match fetchFn q with
    | SendResult.err _ => sawNotFound fetchFn rest
    | SendResult.ok r =>
      if r.status = 404 then true
      else if responseOk r.status = false then false
      else if r.body.errors ≠ [] ∧ r.body.instructions = false then sawNotFound fetchFn rest
      else false

/-- C6 (amended): a page fetch's outcome carries `had404 = true` exactly when
some candidate attempt, up to and including the terminating one, returned
HTTP 404 — not only when every candidate was exhausted.  In particular an
early failure (another non-2xx status) that follows an earlier candidate's
404 is reported with the flag set, making it eligible for refresh although
candidates remained untried. -/
theorem candidateLoop_flag404 (defaultErr : String) (fetchFn : String → SendResult) :
    ∀ (qs : List String) (le : Option String) (h404 : Bool),
      (candidateLoop defaultErr fetchFn qs le h404).flag404 =
        (h404 || sawNotFound fetchFn qs) := by
  intro qs
  induction qs with
  | nil => intro le h404; simp [candidateLoop, sawNotFound, PageAttempt.flag404]
  | cons q rest ih =>
    intro le h404
    cases hfq : fetchFn q with
    | err m =>
      simp [candidateLoop, sawNotFound, hfq, ih]
    | ok r =>
      by_cases h4 : r.status = 404
      · simp [candidateLoop, sawNotFound, hfq, h4, ih]
      · by_cases hok : responseOk r.status = false
        · simp [candidateLoop, sawNotFound, hfq, h4, hok, PageAttempt.flag404]
        · by_cases herr : r.body.errors ≠ [] ∧ r.body.instructions = false
          · simp [candidateLoop, sawNotFound, hfq, h4, hok, herr, ih]
          · simp [candidateLoop, sawNotFound, hfq, h4, hok, herr, PageAttempt.flag404]

/-- Transport for the C6 counterexample: candidate `A` is answered 404,
candidate `B` 500, candidate `C` 200 with one item. -/
def c6fetch : String → SendResult := fun q =>
  if q = "A" then SendResult.ok ⟨404, none, ⟨false, [], [], none, "gone"⟩⟩
  else if q = "B" then SendResult.ok ⟨500, none, ⟨false, [], [], none, "oops"⟩⟩
  else SendResult.ok ⟨200, none, ⟨true, [], [⟨"t9", ""⟩], none, "fine"⟩⟩

/-- Counterexample to C6 as stated: with candidates `[A, B, C]` the scan
stops at `B`'s 500 and returns a failure with `had404 = true`, although
candidate `C` — never tried — would have succeeded, so the flag is not
equivalent to "every candidate was exhausted without a Success with at
least one 404". -/
theorem candidateLoop_flag404_cex :
    candidateLoop "Unknown error fetching bookmarks" c6fetch ["A", "B", "C"] none false =
      PageAttempt.failure "HTTP 500: oops" true ∧
    candidateLoop "Unknown error fetching bookmarks" c6fetch ["C"] none false =
      PageAttempt.success [⟨"t9", ""⟩] none false := by
  exact ⟨rfl, rfl⟩

/-- Transport for C4: the single candidate's first attempt is answered 500,
every later attempt 200 with a parseable one-item page. -/
def c4raw : String → Nat → SendResult := fun _ n =>
  if n = 0 then SendResult.ok ⟨500, none, ⟨false, [], [], none, "srv"⟩⟩
  else SendResult.ok ⟨200, none, ⟨true, [], [⟨"b1", "x"⟩], some "n1", "ok"⟩⟩

/-- Counterexample to C4 as stated: under the same transport — a recoverable
500 on the first attempt, success on the retry — the bookmarks fetch (which
routes requests through `fetchWithRetry`) succeeds, but the likes fetch
fails with the 500, because `getLikes` issues its requests through
`fetchWithTimeout` directly (line 107), not through the Transient Retry
Wrapper. -/
theorem likes_no_retry_cex :
    likesTryOnce c4raw ["Q"] = LikesAttempt.failure "HTTP 500: srv" false ∧
    bookmarksFetchPage c4raw (fun _ _ => 0) ["Q"] =
      PageAttempt.success [⟨"b1", "x"⟩] (some "n1") false := by
  exact ⟨rfl, rfl⟩

/-- C4 (amended): bookmarks and bookmark-folder candidate requests are
executed through the Transient Retry Wrapper, so a recoverable status (here
500) is retried in place before the candidate's response is taken as final;
likes candidate requests are issued directly without the wrapper, so the
same recoverable status is final immediately. -/
theorem retry_wrapper_usage (raw : String → Nat → SendResult)
    (jitter : String → Nat → Nat) (q : String) (rest : List String)
    (r0 r1 : HttpResponse)
    (h0 : raw q 0 = SendResult.ok r0) (hst0 : r0.status = 500)
    (h1 : raw q 1 = SendResult.ok r1) (hst1 : r1.status = 200)
    (herr : r1.body.errors = []) (hinstr : r1.body.instructions = true) :
    bookmarksFetchPage raw jitter (q :: rest) =
      PageAttempt.success r1.body.items r1.body.nextCursor false ∧
    folderTryOnce raw jitter (q :: rest) =
      PageAttempt.success r1.body.items r1.body.nextCursor false ∧
    likesTryOnce raw (q :: rest) =
      LikesAttempt.failure ("HTTP " ++ toString r0.status ++ ": " ++ slice200 r0.body.text)
        false := by
  have hr : (fetchWithRetry (raw q) (jitter q)).1 = SendResult.ok r1 := by
    simp [fetchWithRetry, retryAux, h0, h1, hst0, hst1, retryableStatuses]
  refine ⟨?_, ?_, ?_⟩
  · simp [bookmarksFetchPage, candidateLoop, hr, hst1, responseOk, herr, hinstr]
  · simp [folderTryOnce, candidateLoop, hr, hst1, responseOk, herr, hinstr]
  · simp [likesTryOnce, likesCandidateLoop, h0, hst0, responseOk]

/-- Witness for C4 (amended), at the concrete transport `c4raw`. -/
theorem retry_wrapper_usage_witness :
    bookmarksFetchPage c4raw (fun _ _ => 7) ["Q"] =
      PageAttempt.success [⟨"b1", "x"⟩] (some "n1") false ∧
    folderTryOnce c4raw (fun _ _ => 7) ["Q"] =
      PageAttempt.success [⟨"b1", "x"⟩] (some "n1") false ∧
    likesTryOnce c4raw ["Q"] = LikesAttempt.failure "HTTP 500: srv" false := by
  have h := retry_wrapper_usage c4raw (fun _ _ => 7) "Q" []
    ⟨500, none, ⟨false, [], [], none, "srv"⟩⟩
    ⟨200, none, ⟨true, [], [⟨"b1", "x"⟩], some "n1", "ok"⟩⟩
    rfl rfl rfl rfl rfl rfl
  exact h

/-- Response for the C5 counterexample: 200, a non-empty error list, and a
parseable instruction tree carrying one item. -/
def c5fetch : String → SendResult := fun _ =>
  SendResult.ok ⟨200, none, ⟨true, ["Bad"], [⟨"t1", ""⟩], none, "x"⟩⟩

/-- Counterexample to C5 as stated: for the likes fetch, a 2xx response
whose body has a parseable page structure but also a non-empty provider
error list yields an immediate failure (lines 148-150), not a Success — the
error list is fatal there even though a parseable structure is present. -/
theorem likes_errors_fatal_cex :
    likesCandidateLoop c5fetch ["Q"] none false = LikesAttempt.failure "Bad" false ∧
    (match c5fetch "Q" with
      | SendResult.ok r => r.body.instructions = true ∧ r.body.errors ≠ []
      | SendResult.err _ => False) := by
  exact ⟨rfl, rfl, by decide⟩

/-- C5 (amended): for the bookmarks and bookmark-folder page fetches a 2xx
response with a parseable page structure yields an immediate Success with
the extracted items and cursor even alongside a non-empty provider error
list (remaining candidates are not tried), and the error list is fatal for
that candidate only — the scan continues — when no parseable structure is
present; for the likes fetch a non-empty error list on a 2xx response is
immediately fatal for the whole attempt, regardless of the page
structure. -/
theorem graphql_errors_handling (defaultErr : String) (fetchFn : String → SendResult)
    (q : String) (rest : List String) (le : Option String) (h404 : Bool)
    (r : HttpResponse)
    (hq : fetchFn q = SendResult.ok r) (hst : r.status = 200)
    (herr : r.body.errors ≠ []) :
    (r.body.instructions = true →
      candidateLoop defaultErr fetchFn (q :: rest) le h404 =
        PageAttempt.success r.body.items r.body.nextCursor h404) ∧
    (r.body.instructions = false →
      candidateLoop defaultErr fetchFn (q :: rest) le h404 =
        candidateLoop defaultErr fetchFn rest
          (some (String.intercalate ", " r.body.errors)) h404) ∧
    likesCandidateLoop fetchFn (q :: rest) le h404 =
      LikesAttempt.failure (String.intercalate ", " r.body.errors) h404 := by
  refine ⟨?_, ?_, ?_⟩
  · intro hinstr
    simp [candidateLoop, hq, hst, responseOk, herr, hinstr]
  · intro hinstr
    simp [candidateLoop, hq, hst, responseOk, herr, hinstr]
  · simp [likesCandidateLoop, hq, hst, responseOk, herr]

/-- Witness for C5 (amended), at the concrete transport `c5fetch`. -/
theorem graphql_errors_handling_witness :
    candidateLoop "Unknown error fetching bookmarks" c5fetch ["Q"] none false =
      PageAttempt.success [⟨"t1", ""⟩] none false ∧
    likesCandidateLoop c5fetch ["Q"] none false = LikesAttempt.failure "Bad" false := by
  have h := graphql_errors_handling "Unknown error fetching bookmarks" c5fetch "Q" []
    none false ⟨200, none, ⟨true, ["Bad"], [⟨"t1", ""⟩], none, "x"⟩⟩ rfl rfl (by decide)
  exact ⟨h.1 rfl, h.2.2⟩

/-- Splitting a take at an intermediate point. -/
theorem takeSplit {α : Type} : ∀ (k m : Nat) (l : List α),
    l.take (k + m) = l.take k ++ (l.drop k).take m
  | 0, m, l => by simp
  | k + 1, m, [] => by simp
  | k + 1, m, a :: l => by
    simp only [Nat.succ_add, List.take_succ_cons, List.drop_succ_cons, List.cons_append,
      List.cons.injEq, true_and]
    exact takeSplit k m l

/-- Decoding a position token recovers the position. -/
theorem tokPos_posTok (k : Nat) : tokPos (posTok k) = k := by
  simp [tokPos, posTok]

/-- The cursor the driver holds after collecting `k` items of the idealized
collection. -/
def cursorOf (k : Nat) : Option String := if k = 0 then none else some (posTok k)

/-- The idealized provider resumes at the position its cursor encodes. -/
theorem startOf_cursorOf (k : Nat) : startOf (cursorOf k) = k := by
  by_cases hk : k = 0 <;> simp [cursorOf, hk, startOf, tokPos_posTok]

/-- Position tokens are injective. -/
theorem posTok_inj {a b : Nat} (h : posTok a = posTok b) : a = b := by
  have := congrArg tokPos h
  simpa [tokPos_posTok] using this

/-- A nonzero position token is not the empty string. -/
theorem posTok_ne_empty {k : Nat} (hk : k ≠ 0) : posTok k ≠ "" := by
  intro h
  exact hk (posTok_inj (h.trans rfl))

/-- A nonempty list is not `isEmpty`. -/
theorem isEmptyFalse {α : Type} {l : List α} (h : l ≠ []) : l.isEmpty = false := by
  cases l with
  | nil => exact absurd rfl h
  | cons a t => rfl

/-- The bounded merge loop never grows the accumulator beyond the limit when
entered below it. -/
theorem mergeTweets_length_le (l : Nat) :
    ∀ (page : List TweetData) (seen : List String) (acc : List TweetData),
      acc.length < l → (mergeTweets (some l) seen acc page).2.length ≤ l := by
  intro page
  induction page with
  | nil => intro seen acc hlt; simpa [mergeTweets] using Nat.le_of_lt hlt
  | cons t rest ih =>
    intro seen acc hlt
    by_cases hmem : t.id ∈ seen
    · simpa [mergeTweets, hmem] using ih seen acc hlt
    · by_cases hhit : limitHit (some l) (acc ++ [t]).length
      · simp only [mergeTweets, if_neg hmem, if_pos hhit]
        simp only [List.length_append, List.length_singleton]
        omega
      · have hlt' : (acc ++ [t]).length < l := by
          simp only [limitHit, decide_eq_true_eq] at hhit
          omega
        simp only [mergeTweets, if_neg hmem, if_neg hhit]
        exact ih _ _ hlt'

/-- When the page's items are all new, mutually distinct, and fit inside the
remaining budget, the merge loop appends the whole page and pushes every id
onto the seen set. -/
theorem mergeTweets_all (N : Nat) :
    ∀ (page : List TweetData) (seen : List String) (acc : List TweetData),
      (∀ t ∈ page, t.id ∉ seen) → (page.map TweetData.id).Nodup →
      acc.length + page.length ≤ N →
      mergeTweets (some N) seen acc page =
        ((page.map TweetData.id).reverse ++ seen, acc ++ page) := by
  intro page
  induction page with
  | nil => intro seen acc _ _ _; simp [mergeTweets]
  | cons t rest ih =>
    intro seen acc hnew hnd hfit
    have hmem : t.id ∉ seen := hnew t (List.mem_cons_self t rest)
    by_cases hhit : limitHit (some N) (acc ++ [t]).length
    · have hN : N ≤ acc.length + 1 := by
        simpa [limitHit, List.length_append] using hhit
      have hfit' : acc.length + (rest.length + 1) ≤ N := by
        simpa [List.length_cons] using hfit
      have hrest : rest = [] := by
        have h0 : rest.length = 0 := by omega
        exact List.eq_nil_of_length_eq_zero h0
      subst hrest
      simp [mergeTweets, hmem, hhit]
    · have hnew' : ∀ u ∈ rest, u.id ∉ t.id :: seen := by
        intro u hu
        simp only [List.mem_cons, not_or]
        constructor
        · intro hEq
          simp only [List.map_cons, List.nodup_cons] at hnd
          exact hnd.1 (hEq ▸ List.mem_map_of_mem TweetData.id hu)
        · exact hnew u (List.mem_cons_of_mem t hu)
      have hnd' : (rest.map TweetData.id).Nodup := by
        simp only [List.map_cons, List.nodup_cons] at hnd
        exact hnd.2
      have hfit' : (acc ++ [t]).length + rest.length ≤ N := by
        simp only [List.length_append, List.length_singleton, List.length_cons,
          List.length_nil] at hfit ⊢
        omega
      have := ih (t.id :: seen) (acc ++ [t]) hnew' hnd' hfit'
      simp only [mergeTweets, if_neg hmem, if_neg hhit, this, List.map_cons,
        List.reverse_cons, List.append_assoc]
      simp

/-- Under a bounded budget the driver never returns more than `N` items,
for any provider behaviour. -/
theorem pagedLoop_len_le (N : Nat) (fetch : Nat → Option String → PageAttempt)
    (maxPages : Option Nat) :
    ∀ (fuel : Nat) (st : DriverState) (r : SearchResult) (log : List PageRequest),
      st.tweets.length ≤ N →
      pagedLoop fetch (some N) maxPages fuel st = some (r, log) →
      ∀ ts, r.tweets = some ts → ts.length ≤ N := by
  intro fuel
  induction fuel with
  | zero => intro st r log _ h; simp [pagedLoop] at h
  | succ fuel ih =>
    intro st r log hlen h
    simp only [pagedLoop] at h
    split at h
    · next hgo =>
      have hlt : st.tweets.length < N := by simpa [keepGoing] using hgo
      split at h
      · rw [Option.some_inj, Prod.mk.injEq] at h
        obtain ⟨hr, _⟩ := h
        subst hr
        intro ts hts; cases hts
      · next pts nc h404 hf =>
        have hm : (mergeTweets (some N) st.seen st.tweets pts).2.length ≤ N :=
          mergeTweets_length_le N pts st.seen st.tweets hlt
        split at h
        · rw [Option.some_inj, Prod.mk.injEq] at h
          obtain ⟨hr, _⟩ := h
          subst hr
          intro ts hts
          injection hts with h2
          exact h2 ▸ hm
        · split at h
          · rw [Option.some_inj, Prod.mk.injEq] at h
            obtain ⟨hr, _⟩ := h
            subst hr
            intro ts hts
            injection hts with h2
            exact h2 ▸ hm
          · exact ih _ _ _ hm h
    · rw [Option.some_inj, Prod.mk.injEq] at h
      obtain ⟨hr, _⟩ := h
      subst hr
      intro ts hts
      injection hts with h2
      exact h2 ▸ hlen

/-- Every page request the bounded driver logs asks for
`min(20, N - collected so far)` items. -/
theorem pagedLoop_log_reqOK (N : Nat) (fetch : Nat → Option String → PageAttempt)
    (maxPages : Option Nat) :
    ∀ (fuel : Nat) (st : DriverState) (r : SearchResult) (log : List PageRequest),
      pagedLoop fetch (some N) maxPages fuel st = some (r, log) →
      ∀ e ∈ log, e ∈ st.log ∨ reqOK N e := by
  intro fuel
  induction fuel with
  | zero => intro st r log h; simp [pagedLoop] at h
  | succ fuel ih =>
    intro st r log h
    simp only [pagedLoop] at h
    split at h
    · split at h
      · rw [Option.some_inj, Prod.mk.injEq] at h
        obtain ⟨_, hlog⟩ := h
        subst hlog
        intro e he
        rcases List.mem_append.1 he with h1 | h1
        · exact Or.inl h1
        · rw [List.mem_singleton] at h1
          subst h1
          exact Or.inr rfl
      · split at h
        · rw [Option.some_inj, Prod.mk.injEq] at h
          obtain ⟨_, hlog⟩ := h
          subst hlog
          intro e he
          rcases List.mem_append.1 he with h1 | h1
          · exact Or.inl h1
          · rw [List.mem_singleton] at h1
            subst h1
            exact Or.inr rfl
        · split at h
          · rw [Option.some_inj, Prod.mk.injEq] at h
            obtain ⟨_, hlog⟩ := h
            subst hlog
            intro e he
            rcases List.mem_append.1 he with h1 | h1
            · exact Or.inl h1
            · rw [List.mem_singleton] at h1
              subst h1
              exact Or.inr rfl
          · intro e he
            rcases ih _ _ _ h e he with h1 | h1
            · rcases List.mem_append.1 h1 with h2 | h2
              · exact Or.inl h2
              · rw [List.mem_singleton] at h2
                subst h2
                exact Or.inr rfl
            · exact Or.inr h1
    · rw [Option.some_inj, Prod.mk.injEq] at h
      obtain ⟨_, hlog⟩ := h
      subst hlog
      intro e he
      exact Or.inl he

/-- Driving the bounded loop against the idealized provider from the
invariant state "the first `k` items are collected, the cursor encodes
position `k`" returns exactly the first `N` items of the collection. -/
theorem collFetch_exact (coll : List TweetData) (hnd : (coll.map TweetData.id).Nodup)
    (N : Nat) :
    ∀ (fuel k : Nat) (seen : List String) (p : Nat) (lg : List PageRequest),
      k ≤ coll.length → k < N → N - k < fuel →
      (∀ x, x ∈ seen ↔ x ∈ (coll.take k).map TweetData.id) →
      ∃ log, pagedLoop (collFetch coll) (some N) none fuel
          ⟨seen, coll.take k, cursorOf k, p, lg⟩ =
        some (⟨true, some (coll.take N), none⟩, log) := by
  intro fuel
  induction fuel with
  | zero => intro k seen p lg hk hkN hfuel hseen; omega
  | succ fuel ih =>
    intro k seen p lg hkcoll hkN hfuel hseen
    have hlen : (coll.take k).length = k := by
      rw [List.length_take]; omega
    have hgo : keepGoing (some N) (coll.take k).length = true := by
      simp [keepGoing, hlen, hkN]
    have hpcval : pageCountFor (some N) (coll.take k).length = min 20 (N - k) := by
      simp [pageCountFor, hlen]
    have hpc1 : 1 ≤ min 20 (N - k) := by omega
    have hfetch : collFetch coll (pageCountFor (some N) (coll.take k).length) (cursorOf k) =
        PageAttempt.success ((coll.drop k).take (min 20 (N - k)))
          (if k + min 20 (N - k) < coll.length then some (posTok (k + min 20 (N - k)))
           else none) false := by
      rw [hpcval]
      simp [collFetch, startOf_cursorOf]
    have hpagelen : ((coll.drop k).take (min 20 (N - k))).length =
        min (min 20 (N - k)) (coll.length - k) := by
      simp [List.length_take, List.length_drop]
    have hnewids : ∀ t ∈ (coll.drop k).take (min 20 (N - k)), t.id ∉ seen := by
      intro t ht hmem
      have h1 : t.id ∈ (coll.map TweetData.id).take k := by
        rw [← List.map_take]
        exact (hseen t.id).1 hmem
      have h2 : t.id ∈ (coll.map TweetData.id).drop k := by
        rw [← List.map_drop]
        exact List.mem_map_of_mem TweetData.id (List.mem_of_mem_take ht)
      exact (List.disjoint_take_drop hnd (Nat.le_refl k)) h1 h2
    have hndpage : (((coll.drop k).take (min 20 (N - k))).map TweetData.id).Nodup := by
      have hsub : ((coll.drop k).take (min 20 (N - k))).Sublist coll :=
        (List.take_sublist _ _).trans (List.drop_sublist _ _)
      exact hnd.sublist (hsub.map TweetData.id)
    have hfit : (coll.take k).length + ((coll.drop k).take (min 20 (N - k))).length ≤ N := by
      rw [hlen, hpagelen]; omega
    have hmerge := mergeTweets_all N ((coll.drop k).take (min 20 (N - k))) seen (coll.take k)
      hnewids hndpage hfit
    have htweets : coll.take k ++ (coll.drop k).take (min 20 (N - k)) =
        coll.take (k + min 20 (N - k)) := by
      rw [takeSplit]
    have hseen2 : ∀ x, x ∈ (((coll.drop k).take (min 20 (N - k))).map TweetData.id).reverse ++ seen ↔
        x ∈ (coll.take (k + min 20 (N - k))).map TweetData.id := by
      intro x
      rw [List.mem_append, List.mem_reverse, ← htweets, List.map_append, List.mem_append]
      constructor
      · rintro (hx | hx)
        · exact Or.inr hx
        · exact Or.inl ((hseen x).1 hx)
      · rintro (hx | hx)
        · exact Or.inr ((hseen x).2 hx)
        · exact Or.inl hx
    by_cases hcont : k + min 20 (N - k) < coll.length
    · -- a further page exists behind a fresh token
      have hne0 : k + min 20 (N - k) ≠ 0 := by omega
      have hcfalse : cursorFalsy (some (posTok (k + min 20 (N - k)))) = false := by
        simp [cursorFalsy, posTok_ne_empty hne0]
      have hcneq : decide ((some (posTok (k + min 20 (N - k))) : Option String) = cursorOf k) = false := by
        rw [decide_eq_false_iff_not]
        intro hEq
        by_cases hk0 : k = 0
        · simp [cursorOf, hk0] at hEq
        · simp only [cursorOf, if_neg hk0, Option.some_inj] at hEq
          have := posTok_inj hEq
          omega
      have hpne : ((coll.drop k).take (min 20 (N - k))).isEmpty = false := by
        apply isEmptyFalse
        intro hnil
        rw [hnil] at hpagelen
        simp at hpagelen
        omega
      simp only [pagedLoop, hgo, if_true, hfetch, if_pos hcont, hmerge, hcfalse, hcneq,
        hpne, Bool.or_self, Bool.or_false, Bool.false_or, if_false, maxPagesHit]
      by_cases hend : k + min 20 (N - k) < N
      · -- keep looping: apply the induction hypothesis at the new position
        have hc2 : cursorOf (k + min 20 (N - k)) = some (posTok (k + min 20 (N - k))) := by
          simp [cursorOf, hne0]
        obtain ⟨log, hlog⟩ := ih (k + min 20 (N - k))
          ((((coll.drop k).take (min 20 (N - k))).map TweetData.id).reverse ++ seen)
          (p + 1) (lg ++ [⟨pageCountFor (some N) (coll.take k).length, cursorOf k,
            (coll.take k).length⟩])
          (by omega) hend (by omega) hseen2
        refine ⟨log, ?_⟩
        rw [htweets, ← hc2]
        exact hlog
      · -- the budget is met exactly: the next loop entry returns
        have hEqN : k + min 20 (N - k) = N := by omega
        have hlenN : (coll.take N).length = N := by
          rw [List.length_take]; omega
        cases fuel with
        | zero => omega
        | succ fuel2 =>
          refine ⟨lg ++ [⟨pageCountFor (some N) (coll.take k).length, cursorOf k,
            (coll.take k).length⟩], ?_⟩
          rw [htweets, hEqN]
          simp only [pagedLoop, keepGoing, hlenN]
          simp
    · -- the collection is exhausted on this page: the falsy cursor stops the loop
      have htake : coll.take (k + min 20 (N - k)) = coll.take N := by
        by_cases heq : k + min 20 (N - k) = N
        · rw [heq]
        · have h1 : coll.length ≤ k + min 20 (N - k) := by omega
          have h2 : coll.length ≤ N := by omega
          rw [List.take_of_length_le h1, List.take_of_length_le h2]
      refine ⟨lg ++ [⟨pageCountFor (some N) (coll.take k).length, cursorOf k,
        (coll.take k).length⟩], ?_⟩
      simp only [pagedLoop, hgo, if_true, hfetch, if_neg hcont, hmerge, cursorFalsy,
        Bool.true_or, if_true]
      rw [htweets, htake]

/-- C1: for every bounded item budget N > 0 the pagination driver
(`getBookmarksPaged` / `getBookmarkFolderTimelinePaged`, whose driver loops
are embedded as `pagedLoop`; the exposed bounded entry points pass no page
ceiling) returns on success a list of at most N items — and, run against a
well-behaved provider paging an underlying collection of distinct items,
exactly the first N items (so exactly N unless the collection yields fewer
distinct items, `(coll.take N).length = min N coll.length`); and every page
request it issues asks for `min(20, N - items collected so far)` items. -/
theorem bookmarks_paged_budget (N : Nat) (hN : 0 < N) :
    (∀ (fetch : Nat → Option String → PageAttempt) (maxPages : Option Nat)
       (fuel : Nat) (st : DriverState) (r : SearchResult) (log : List PageRequest),
       st.tweets.length ≤ N →
       pagedLoop fetch (some N) maxPages fuel st = some (r, log) →
       (∀ ts, r.tweets = some ts → ts.length ≤ N) ∧
       (∀ e ∈ log, e ∈ st.log ∨ reqOK N e)) ∧
    (∀ coll : List TweetData, (coll.map TweetData.id).Nodup →
       ∃ log, pagedLoop (collFetch coll) (some N) none (N + 1) initState =
           some (⟨true, some (coll.take N), none⟩, log) ∧
         (coll.take N).length = min N coll.length ∧
         ∀ e ∈ log, reqOK N e) := by
  constructor
  · intro fetch maxPages fuel st r log hlen h
    exact ⟨pagedLoop_len_le N fetch maxPages fuel st r log hlen h,
      pagedLoop_log_reqOK N fetch maxPages fuel st r log h⟩
  · intro coll hnd
    obtain ⟨log, hlog⟩ := collFetch_exact coll hnd N (N + 1) 0 [] 0 []
      (Nat.zero_le _) hN (by omega) (by intro x; simp)
    refine ⟨log, ?_, ?_, ?_⟩
    · exact hlog
    · exact List.length_take N coll
    · intro e he
      rcases pagedLoop_log_reqOK N (collFetch coll) none (N + 1)
          ⟨[], coll.take 0, cursorOf 0, 0, []⟩ ⟨true, some (coll.take N), none⟩ log hlog
          e he with h1 | h1
      · simp at h1
      · exact h1

/-- Collection of 23 distinct items for the C1 witness. -/
def w1coll : List TweetData := (List.range 23).map (fun i => ⟨toString i, ""⟩)

/-- Witness for C1: a budget of 25 over a 23-item collection collects all 23
items (fewer distinct items than the budget), with every logged request
sized `min(20, remaining)`. -/
theorem bookmarks_paged_budget_witness :
    0 < 25 ∧
    (∃ log, pagedLoop (collFetch w1coll) (some 25) none 26 initState =
        some (⟨true, some (w1coll.take 25), none⟩, log) ∧
      (w1coll.take 25).length = min 25 w1coll.length ∧
      ∀ e ∈ log, reqOK 25 e) :=
  ⟨by decide, (bookmarks_paged_budget 25 (by decide)).2 w1coll (by decide)⟩

end Bird
